import Mathlib

/-!
# Verification of the Wealth Pulse budget engine

Shallow embedding of `src/services/fx.service.ts`, `src/services/budget.service.ts`
and `src/models/budget.models.ts` of the `wealth-pulse-api` repository.

Modelling conventions:
* JavaScript numbers are embedded as exact rationals (`ℚ`); every numeric literal
  of the source is carried over as the exact rational it denotes.
* `Date` values are embedded as natural-number timestamps (milliseconds); the
  current time is passed explicitly as a `now : Nat` parameter wherever the
  source calls `new Date()` / `Date.now()`, and the current calendar position as
  `nowYear nowMonth : Int` where the source reads calendar fields of `new Date()`.
* JavaScript `Map` objects and plain-object records are embedded as association
  lists (`List (String × _)`); `Map.set` / property assignment replaces the value
  at an existing key in place and appends a fresh key at the end, matching the
  insertion-order semantics of the runtime.
* The external exchange-rate HTTP provider is embedded as an explicit parameter
  `api : Api`: for a source currency it either yields the response's rate table
  (`some rates`) or fails (`none`, covering network errors and non-ok responses).
* Non-deterministic provenance metadata that no claim depends on is omitted:
  `uuid` identifiers of plans / transactions / insights, the `id` string of an
  `FxRate`, and display-only message strings of insights.
-/

namespace WealthPulse

/-- ISO currency codes, `type Currency = string` in the source. -/
abbrev Currency := String

/-- `Money` from `budget.models.ts`: an amount with its normalization metadata. -/
structure Money where
  amount : ℚ
  currency : Currency
  baseAmount : ℚ
  fxRate : ℚ
  fxTimestamp : Nat
deriving DecidableEq, Repr

/-- `FxRate` from `budget.models.ts` (the nondeterministic `id` string is omitted). -/
structure FxRate where
  fromCur : Currency
  toCur : Currency
  rate : ℚ
  timestamp : Nat
deriving DecidableEq, Repr

/-- The module-level `fxRateCache : Map<string, FxRate>`. -/
abbrev FxState := List (String × FxRate)

/-- The external rate provider: per source currency, either the parsed
`data.rates` table of a successful response or `none` for any failure. -/
abbrev Api := Currency → Option (List (Currency × ℚ))

/-- An `api` that always fails; used to instantiate theorems at concrete inputs
(the code paths exercised there never consult the provider). -/
def apiNone : Api := fun _ => none

/-- Association-list lookup, embedding `Map.get` / record indexing. -/
def lookupA {α : Type} : List (String × α) → String → Option α
  | [], _ => none
  | (k, v) :: rest, key => if k = key then some v else lookupA rest key

/-- Association-list update, embedding `Map.set` / record-key assignment:
replaces the value at an existing key in place, else appends at the end. -/
def setA {α : Type} : List (String × α) → String → α → List (String × α)
  | [], key, v => [(key, v)]
  | (k, w) :: rest, key, v =>
      if k = key then (k, v) :: rest else (k, w) :: setA rest key v

/-- `getCacheKey` from `fx.service.ts`. -/
def getCacheKey (fromCur toCur : Currency) : String :=
  fromCur ++ "_" ++ toCur

/-- `DEFAULT_RATES` from `fx.service.ts`. -/
def DEFAULT_RATES : List (String × ℚ) :=
  [("USD_AED", 3.67), ("INR_AED", 0.044), ("EUR_AED", 3.98), ("GBP_AED", 4.64),
   ("AED_USD", 0.27), ("AED_INR", 22.73), ("AED_EUR", 0.25), ("AED_GBP", 0.22),
   ("USD_INR", 83.5), ("INR_USD", 0.012)]

/-- JavaScript `x || d` over an optional rate: a missing or zero (falsy) value
falls through to the default. -/
def jsFalsyOr (x : Option ℚ) (d : ℚ) : ℚ :=
  match x with
  | some v => if v = 0 then d else v
  | none => d

/-- `fetchFxRate` from `fx.service.ts`. Checks the cache for a fresh entry
(age below one hour) first, then the same-currency identity, then the
provider with the `rates[to] || DEFAULT_RATES[key] || 1` fallback chain,
then the `DEFAULT_RATES[key] || 1` fallback. Returns the rate together with
the updated cache. -/
def fetchFxRate (api : Api) (st : FxState) (now : Nat) (fromCur toCur : Currency) :
    FxRate × FxState :=
  let cacheKey := getCacheKey fromCur toCur
  let cachedFresh : Option FxRate :=
    match lookupA st cacheKey with
    | some cached => if now - cached.timestamp < 3600000 then some cached else none
    | none => none
  match cachedFresh with
  | some cached => (cached, st)
  | none =>
      if fromCur = toCur then
        let rate : FxRate := ⟨fromCur, toCur, 1, now⟩
        (rate, setA st cacheKey rate)
      else
        match api fromCur with
        | some rates =>
            let r := jsFalsyOr (lookupA rates toCur) (jsFalsyOr (lookupA DEFAULT_RATES cacheKey) 1)
            let rate : FxRate := ⟨fromCur, toCur, r, now⟩
            (rate, setA st cacheKey rate)
        | none =>
            let r := jsFalsyOr (lookupA DEFAULT_RATES cacheKey) 1
            let rate : FxRate := ⟨fromCur, toCur, r, now⟩
            (rate, setA st cacheKey rate)

/-- `convertCurrency` from `fx.service.ts`. -/
def convertCurrency (api : Api) (st : FxState) (now : Nat) (amount : ℚ)
    (fromCur toCur : Currency) : ℚ × FxRate × FxState :=
  let f := fetchFxRate api st now fromCur toCur
  (amount * f.1.rate, f.1, f.2)

/-- `createMoney` from `fx.service.ts`. -/
def createMoney (api : Api) (st : FxState) (now : Nat) (amount : ℚ)
    (currency baseCurrency : Currency) : Money × FxState :=
  let c := convertCurrency api st now amount currency baseCurrency
  (⟨amount, currency, c.1, c.2.1.rate, c.2.1.timestamp⟩, c.2.2)

/-- `setFxRate` from `fx.service.ts` (manual override, "useful for testing"). -/
def setFxRate (st : FxState) (now : Nat) (fromCur toCur : Currency) (rate : ℚ) :
    FxRate × FxState :=
  let fxRate : FxRate := ⟨fromCur, toCur, rate, now⟩
  (fxRate, setA st (getCacheKey fromCur toCur) fxRate)

/-- `BucketStatus` from `budget.models.ts`. -/
inductive BucketStatus where
  | UNDER
  | NEAR_LIMIT
  | OVER
deriving DecidableEq, Repr

/-- `BucketType` from `budget.models.ts`. -/
inductive BucketType where
  | NEEDS
  | WANTS
  | SAVINGS
  | DEBT
deriving DecidableEq, Repr

/-- `calculateStatus` from `budget.service.ts`: zero planned is vacuously
`UNDER`; otherwise classify by the ratio `spent / planned`. -/
def calculateStatus (spent planned : ℚ) : BucketStatus :=
  if planned = 0 then .UNDER
  else
    let r := spent / planned
    if r > 1 then .OVER
    else if r ≥ 0.8 then .NEAR_LIMIT
    else .UNDER

/-- `getPlanKey` from `budget.service.ts`. -/
def getPlanKey (userId month : String) : String :=
  userId ++ "_" ++ month

/-- `DebtStrategy` from `budget.models.ts`. -/
inductive DebtStrategy where
  | snowball
  | avalanche
deriving DecidableEq, Repr

/-- `IncomeSource` from `budget.models.ts`. Display metadata the engine never
reads (`type`, `recurrence`, timestamps) is omitted. -/
structure IncomeSource where
  id : String
  userId : String
  name : String
  money : Money
  isActive : Bool
deriving DecidableEq, Repr

/-- `Debt` from `budget.models.ts`. The optional manual `priority` field and
timestamps are omitted: the engine never reads them. -/
structure Debt where
  id : String
  userId : String
  name : String
  currency : Currency
  outstandingPrincipal : Money
  interestRateAnnual : ℚ
  minMonthlyPayment : Money
  country : String
deriving DecidableEq, Repr

/-- `Goal` from `budget.models.ts`. The `targetDate : string` (a `YYYY-MM-DD`
date) is embedded as the year / month pair the engine extracts from it via
`Date` parsing in `calculateMonthsRemaining`. -/
structure Goal where
  id : String
  userId : String
  name : String
  targetAmount : Money
  currentAmount : Money
  targetYear : Int
  targetMonth : Int
  country : String
deriving DecidableEq, Repr

/-- The `buckets` percentage record of `BudgetRuleSet`. -/
structure BucketPercents where
  needs : ℚ
  wants : ℚ
  savings : ℚ
  debt : ℚ
deriving DecidableEq, Repr

/-- The `liabilityOriginPolicy` weight record of `BudgetRuleSet`. -/
structure LiabilityOriginPolicy where
  home : ℚ
  local_ : ℚ
  global_ : ℚ
deriving DecidableEq, Repr

/-- `BudgetRuleSet` from `budget.models.ts` (identifier and timestamp fields
omitted: the engine never reads them). -/
structure BudgetRuleSet where
  buckets : BucketPercents
  minSavingsPercent : ℚ
  minDebtPercent : ℚ
  liabilityOriginPolicy : LiabilityOriginPolicy
  emergencyFundPolicy : ℚ
  debtStrategy : DebtStrategy
deriving DecidableEq, Repr

/-- `DEFAULT_BUDGET_RULES` from `budget.models.ts`. -/
def DEFAULT_BUDGET_RULES : BudgetRuleSet :=
  ⟨⟨50, 20, 15, 15⟩, 10, 5, ⟨0.5, 0.4, 0.1⟩, 6, .avalanche⟩

/-- `DEFAULT_CATEGORIES` from `budget.models.ts`, field `NEEDS`. -/
def DEFAULT_CATEGORIES_NEEDS : List String :=
  [("rent"), ("utilities"), ("groceries"), ("transport"), ("insurance"), ("healthcare")]

/-- `DEFAULT_CATEGORIES` from `budget.models.ts`, field `WANTS`. -/
def DEFAULT_CATEGORIES_WANTS : List String :=
  [("dining_out"), ("entertainment"), ("shopping"), ("subscriptions"), ("hobbies"), ("travel")]

/-- `DEFAULT_CATEGORIES` from `budget.models.ts`, field `SAVINGS`. -/
def DEFAULT_CATEGORIES_SAVINGS : List String :=
  [("emergency_fund"), ("investments"), ("retirement"), ("goals")]

/-- `DEFAULT_CATEGORIES` from `budget.models.ts`, field `DEBT`. -/
def DEFAULT_CATEGORIES_DEBT : List String :=
  [("credit_card"), ("home_loan"), ("personal_loan"), ("car_loan"), ("other_debt")]

/-- `CategoryBudget` from `budget.models.ts`. -/
structure CategoryBudget where
  name : String
  planned : ℚ
  spent : ℚ
  remaining : ℚ
  status : BucketStatus
deriving DecidableEq, Repr

/-- `SavingsAllocation` from `budget.models.ts`. -/
structure SavingsAllocation where
  localEmergencyFund : ℚ
  homeCountryInvestments : ℚ
  globalInvestments : ℚ
deriving DecidableEq, Repr

/-- `DebtAllocation` from `budget.models.ts`. -/
structure DebtAllocation where
  baseCurrencyDebt : ℚ
  homeCountryDebt : ℚ
  otherDebt : ℚ
deriving DecidableEq, Repr

/-- `BudgetBucket` from `budget.models.ts`; `categories` is the
`Record<string, CategoryBudget>` in insertion order. -/
structure BudgetBucket where
  type : BucketType
  planned : Money
  spent : Money
  remaining : Money
  status : BucketStatus
  categories : List (String × CategoryBudget)
  savingsAllocation : Option SavingsAllocation
  debtAllocation : Option DebtAllocation
deriving DecidableEq, Repr

/-- `DebtSnapshot` from `budget.models.ts`. -/
structure DebtSnapshot where
  debtId : String
  name : String
  outstandingPrincipal : Money
  allocatedPayment : Money
  isMinimumPayment : Bool
deriving DecidableEq, Repr

/-- `GoalSnapshot` from `budget.models.ts`. -/
structure GoalSnapshot where
  goalId : String
  name : String
  targetAmount : Money
  currentAmount : Money
  monthlyContribution : Money
  progressPercent : ℚ
deriving DecidableEq, Repr

/-- The insight `type` union of `BudgetInsight`. -/
inductive InsightType where
  | warning
  | alert
  | info
  | success
deriving DecidableEq, Repr

/-- `BudgetInsight` from `budget.models.ts` (the `uuid` identifier and the
display-only `message` string are omitted). -/
structure BudgetInsight where
  type : InsightType
  bucket : Option BucketType
  category : Option String
  createdAt : Nat
deriving DecidableEq, Repr

/-- The `buckets` record of `MonthlyBudgetPlan`, in literal (insertion) order. -/
structure Buckets where
  NEEDS : BudgetBucket
  WANTS : BudgetBucket
  SAVINGS : BudgetBucket
  DEBT : BudgetBucket
deriving DecidableEq, Repr

/-- `MonthlyBudgetPlan` from `budget.models.ts` (the `uuid` plan id is omitted). -/
structure MonthlyBudgetPlan where
  userId : String
  month : String
  baseCurrency : Currency
  totalIncome : Money
  buckets : Buckets
  debtsSnapshot : List DebtSnapshot
  goalsSnapshot : List GoalSnapshot
  insights : List BudgetInsight
  createdAt : Nat
  updatedAt : Nat
deriving DecidableEq, Repr

/-- `TransactionType` from `budget.models.ts`. -/
inductive TransactionType where
  | expense
  | income
  | transfer
deriving DecidableEq, Repr

/-- `Transaction` from `budget.models.ts` (`uuid` id and `budgetPlanId` omitted). -/
structure Transaction where
  userId : String
  type : TransactionType
  money : Money
  category : String
  bucket : BucketType
  description : String
  date : Nat
  isRecurring : Bool
  tags : List String
  createdAt : Nat
  updatedAt : Nat
deriving DecidableEq, Repr

/-- Index the `buckets` record of a plan by a `BucketType` value, embedding the
`plan.buckets[bucket]` access of `logTransaction`. -/
def getBucket (b : Buckets) : BucketType → BudgetBucket
  | .NEEDS => b.NEEDS
  | .WANTS => b.WANTS
  | .SAVINGS => b.SAVINGS
  | .DEBT => b.DEBT

/-- Write back a bucket into the `buckets` record (the in-place mutation of
`plan.buckets[bucket]` in `logTransaction`). -/
def setBucket (b : Buckets) : BucketType → BudgetBucket → Buckets
  | .NEEDS, v => { b with NEEDS := v }
  | .WANTS, v => { b with WANTS := v }
  | .SAVINGS, v => { b with SAVINGS := v }
  | .DEBT, v => { b with DEBT := v }

/-- `createBucket` from `budget.service.ts`. -/
def createBucket (type : BucketType) (planned : ℚ) (baseCurrency : Currency)
    (categoryNames : List String) (now : Nat) : BudgetBucket :=
  let perCategory := planned / (categoryNames.length : ℚ)
  { type := type,
    planned := ⟨planned, baseCurrency, planned, 1, now⟩,
    spent := ⟨0, baseCurrency, 0, 1, now⟩,
    remaining := ⟨planned, baseCurrency, planned, 1, now⟩,
    status := .UNDER,
    categories := categoryNames.map (fun name => (name, ⟨name, perCategory, 0, perCategory, .UNDER⟩)),
    savingsAllocation := none,
    debtAllocation := none }

/-- `calculateMonthsRemaining` from `budget.service.ts`, with the target date
and the current date supplied as year / month pairs. -/
def calculateMonthsRemaining (targetYear targetMonth nowYear nowMonth : Int) : Int :=
  max 0 ((targetYear - nowYear) * 12 + (targetMonth - nowMonth))

/-- The goal-snapshot construction of Step 6 of `generateBudgetPlan`. -/
def goalSnapshotOf (baseCurrency : Currency) (now : Nat) (nowYear nowMonth : Int)
    (goal : Goal) : GoalSnapshot :=
  let monthsRemaining := calculateMonthsRemaining goal.targetYear goal.targetMonth nowYear nowMonth
  let amountNeeded := goal.targetAmount.baseAmount - goal.currentAmount.baseAmount
  let monthlyContribution := if monthsRemaining > 0 then amountNeeded / (monthsRemaining : ℚ) else 0
  let progressPercent :=
    if goal.targetAmount.baseAmount > 0 then
      goal.currentAmount.baseAmount / goal.targetAmount.baseAmount * 100
    else 0
  { goalId := goal.id, name := goal.name, targetAmount := goal.targetAmount,
    currentAmount := goal.currentAmount,
    monthlyContribution := ⟨monthlyContribution, baseCurrency, monthlyContribution, 1, now⟩,
    progressPercent := progressPercent }

/-- The strategy order of Step 5 of `generateBudgetPlan`: `snowball` sorts by
ascending outstanding principal, `avalanche` by descending annual interest. -/
def strategyRel : DebtStrategy → Debt → Debt → Prop
  | .snowball, a, b => a.outstandingPrincipal.baseAmount ≤ b.outstandingPrincipal.baseAmount
  | .avalanche, a, b => b.interestRateAnnual ≤ a.interestRateAnnual

instance strategyRelDecidable : (s : DebtStrategy) → DecidableRel (strategyRel s)
  | .snowball => fun _ _ => inferInstanceAs (Decidable (_ ≤ _))
  | .avalanche => fun _ _ => inferInstanceAs (Decidable (_ ≤ _))

/-- The `sortedDebts` computation of `generateBudgetPlan`: a comparator sort of
a copy of the debts list under the strategy order. -/
def sortDebts (strategy : DebtStrategy) (debts : List Debt) : List Debt :=
  List.insertionSort (strategyRel strategy) debts

/-- The debt-distribution loop of Step 5 of `generateBudgetPlan`: walk the
sorted debts keeping the remaining debt budget; only while the snapshot list is
still empty can a debt receive more than its minimum payment, capped by
`min(remainingBudget, outstandingPrincipal)`. -/
def debtWalk (api : Api) (now : Nat) (baseCurrency : Currency) :
    FxState → List Debt → ℚ → List DebtSnapshot → List DebtSnapshot × FxState
  | st, [], _, acc => (acc, st)
  | st, d :: rest, remainingDebtBudget, acc =>
      let minPayment := d.minMonthlyPayment.baseAmount
      let takeExtra : Bool := decide (remainingDebtBudget > minPayment) && decide (acc = [])
      let allocatedPayment :=
        if takeExtra then min remainingDebtBudget d.outstandingPrincipal.baseAmount
        else minPayment
      let cm := createMoney api st now allocatedPayment baseCurrency baseCurrency
      debtWalk api now baseCurrency cm.2 rest (remainingDebtBudget - allocatedPayment)
        (acc ++ [⟨d.id, d.name, d.outstandingPrincipal, cm.1, !takeExtra⟩])

/-- The post-hoc debt-allocation classification of `generateBudgetPlan`: a
snapshot whose source debt is found and is in the base currency counts as
base-currency debt, every other snapshot as home-country debt. -/
def debtMatchesBase (debts : List Debt) (baseCurrency : Currency) (s : DebtSnapshot) : Bool :=
  match debts.find? (fun db => db.id = s.debtId) with
  | some db => db.currency = baseCurrency
  | none => false

/-- `generateBudgetPlan` from `budget.service.ts` (Steps 1-8), returning the
plan together with the updated FX cache. Storage of the plan is performed by
the store-level wrapper `generateBudgetPlanS`. -/
def generateBudgetPlan (api : Api) (st : FxState) (now : Nat) (nowYear nowMonth : Int)
    (userId month : String) (baseCurrency : Currency)
    (incomes : List IncomeSource) (debts : List Debt) (goals : List Goal)
    (rules : BudgetRuleSet) : MonthlyBudgetPlan × FxState :=
  let totalIncomeBase := ((incomes.filter (fun i => i.isActive)).map (fun i => i.money.baseAmount)).sum
  let cm := createMoney api st now totalIncomeBase baseCurrency baseCurrency
  let totalIncome := cm.1
  let needsPlanned := totalIncomeBase * rules.buckets.needs / 100
  let wantsPlanned := totalIncomeBase * rules.buckets.wants / 100
  let savingsPlanned0 := totalIncomeBase * rules.buckets.savings / 100
  let debtPlanned0 := totalIncomeBase * rules.buckets.debt / 100
  let minSavings := totalIncomeBase * (rules.minSavingsPercent / 100)
  let totalMinDebtPayments := (debts.map (fun d => d.minMonthlyPayment.baseAmount)).sum
  let savingsPlanned := if savingsPlanned0 < minSavings then minSavings else savingsPlanned0
  let debtPlanned := if debtPlanned0 < totalMinDebtPayments then totalMinDebtPayments else debtPlanned0
  let savingsAllocation : SavingsAllocation :=
    ⟨savingsPlanned * rules.liabilityOriginPolicy.local_,
     savingsPlanned * rules.liabilityOriginPolicy.home,
     savingsPlanned * rules.liabilityOriginPolicy.global_⟩
  let sortedDebts := sortDebts rules.debtStrategy debts
  let dw := debtWalk api now baseCurrency cm.2 sortedDebts debtPlanned []
  let debtSnapshots := dw.1
  let debtAllocation : DebtAllocation :=
    ⟨((debtSnapshots.filter (fun s => debtMatchesBase debts baseCurrency s)).map
        (fun s => s.allocatedPayment.baseAmount)).sum,
     ((debtSnapshots.filter (fun s => !debtMatchesBase debts baseCurrency s)).map
        (fun s => s.allocatedPayment.baseAmount)).sum,
     0⟩
  let goalsSnapshots := goals.map (goalSnapshotOf baseCurrency now nowYear nowMonth)
  let buckets : Buckets :=
    { NEEDS := createBucket .NEEDS needsPlanned baseCurrency DEFAULT_CATEGORIES_NEEDS now,
      WANTS := createBucket .WANTS wantsPlanned baseCurrency DEFAULT_CATEGORIES_WANTS now,
      SAVINGS := { createBucket .SAVINGS savingsPlanned baseCurrency DEFAULT_CATEGORIES_SAVINGS now with
                     savingsAllocation := some savingsAllocation },
      DEBT := { createBucket .DEBT debtPlanned baseCurrency DEFAULT_CATEGORIES_DEBT now with
                  debtAllocation := some debtAllocation } }
  let insights : List BudgetInsight :=
    (if savingsPlanned < minSavings then [⟨.warning, some .SAVINGS, none, now⟩] else []) ++
    (if debtPlanned > totalIncomeBase * 0.4 then [⟨.alert, some .DEBT, none, now⟩] else [])
  ({ userId := userId, month := month, baseCurrency := baseCurrency,
     totalIncome := totalIncome, buckets := buckets,
     debtsSnapshot := debtSnapshots, goalsSnapshot := goalsSnapshots,
     insights := insights, createdAt := now, updatedAt := now }, dw.2)

/-- The own property names of a pristine `Object.prototype`: on a plain-object
record `{}` (how `createBucket` builds `categories`), reading any of these keys
finds a truthy inherited member even though the record has no own entry under
that name. -/
def OBJECT_PROTOTYPE_KEYS : List String :=
  [("constructor"), ("hasOwnProperty"), ("isPrototypeOf"), ("propertyIsEnumerable"),
   ("toLocaleString"), ("toString"), ("valueOf"), ("__defineGetter__"),
   ("__defineSetter__"), ("__lookupGetter__"), ("__lookupSetter__"), ("__proto__")]

/-- The category update of `logTransaction` (lines 406-421). The guard
`if (bucketData.categories[category])` is a plain-object property read, so it
consults the prototype chain: an own entry (first match; `Record` own keys are
unique, and an own property shadows the prototype) accumulates the spend and
is reclassified through `calculateStatus`; a key with no own entry that names
an `Object.prototype` member finds the truthy inherited member and takes the
same update branch — the mutation lands on that inherited object, no own
category is created and the record's own entries are unchanged (the later
`?.status === "OVER"` read then sees `calculateStatus(NaN, undefined) = UNDER`
on that corrupted object, so no category insight is emitted either, matching
the `none` lookup of the model; the lasting `Object.prototype` pollution a
`__proto__` request leaves behind for later calls is outside the model); any
other unknown key is appended with `planned = 0` and hard-coded status
`OVER`. -/
def applyCategory : List (String × CategoryBudget) → String → ℚ → List (String × CategoryBudget)
  | [], category, delta =>
      if category ∈ OBJECT_PROTOTYPE_KEYS then []
      else [(category, ⟨category, 0, delta, -delta, .OVER⟩)]
  | (k, cat) :: rest, category, delta =>
      if k = category then
        (k, { cat with spent := cat.spent + delta,
                       remaining := cat.planned - (cat.spent + delta),
                       status := calculateStatus (cat.spent + delta) cat.planned }) :: rest
      else (k, cat) :: applyCategory rest category delta

/-- The plan mutation of `logTransaction` (lines 394-463): add the normalized
amount `delta` to the target bucket's spent, recompute remaining and status,
update or create the category, collect the newly triggered insights and append
them to the plan's insight log. Returns the updated plan and exactly the new
insights. -/
def applyTransactionToPlan (plan : MonthlyBudgetPlan) (delta : ℚ) (category : String)
    (bucket : BucketType) (now : Nat) : MonthlyBudgetPlan × List BudgetInsight :=
  let b0 := getBucket plan.buckets bucket
  let spentBase := b0.spent.baseAmount + delta
  let b1 : BudgetBucket :=
    { b0 with
        spent := { b0.spent with baseAmount := spentBase, amount := b0.spent.amount + delta },
        remaining := { b0.remaining with baseAmount := b0.planned.baseAmount - spentBase,
                                         amount := b0.planned.baseAmount - spentBase },
        status := calculateStatus spentBase b0.planned.baseAmount }
  let b2 : BudgetBucket := { b1 with categories := applyCategory b1.categories category delta }
  let newInsights : List BudgetInsight :=
    (if b2.status = .NEAR_LIMIT then [⟨.warning, some bucket, none, now⟩] else []) ++
    (if b2.status = .OVER then [⟨.alert, some bucket, none, now⟩] else []) ++
    (match lookupA b2.categories category with
     | some cat => if cat.status = .OVER then [⟨.alert, some bucket, some category, now⟩] else []
     | none => [])
  ({ plan with buckets := setBucket plan.buckets bucket b2,
               insights := plan.insights ++ newInsights,
               updatedAt := now }, newInsights)

/-- The process-wide mutable state of the engine: the FX rate cache of
`fx.service.ts` and the plan and transaction stores of `budget.service.ts`. -/
structure EngineState where
  fx : FxState
  plans : List (String × MonthlyBudgetPlan)
  txs : List Transaction
deriving DecidableEq, Repr

/-- Store-level `generateBudgetPlan`: generate and persist under the
`getPlanKey` key (a second generation for the same key overwrites). -/
def generateBudgetPlanS (api : Api) (now : Nat) (nowYear nowMonth : Int) (s : EngineState)
    (userId month : String) (baseCurrency : Currency)
    (incomes : List IncomeSource) (debts : List Debt) (goals : List Goal)
    (rules : BudgetRuleSet) : MonthlyBudgetPlan × EngineState :=
  let g := generateBudgetPlan api s.fx now nowYear nowMonth userId month baseCurrency
             incomes debts goals rules
  (g.1, ⟨g.2, setA s.plans (getPlanKey userId month) g.1, s.txs⟩)

/-- `logTransaction` from `budget.service.ts`: fetch the stored plan (or
synthesize a default one from empty inputs and the default rule set), normalize
the amount, record the transaction, apply it to the plan and persist both.
Returns `(transaction, updatedPlan, newInsights, state)`. -/
def logTransaction (api : Api) (now : Nat) (nowYear nowMonth : Int) (s : EngineState)
    (userId month : String) (amount : ℚ) (currency baseCurrency : Currency)
    (category : String) (bucket : BucketType) (description : String)
    (date : Nat) (tags : List String) :
    Transaction × MonthlyBudgetPlan × List BudgetInsight × EngineState :=
  let key := getPlanKey userId month
  let pre : MonthlyBudgetPlan × EngineState :=
    match lookupA s.plans key with
    | some p => (p, s)
    | none => generateBudgetPlanS api now nowYear nowMonth s userId month baseCurrency
                [] [] [] DEFAULT_BUDGET_RULES
  let plan0 := pre.1
  let cm := createMoney api pre.2.fx now amount currency baseCurrency
  let money := cm.1
  let tx : Transaction :=
    ⟨userId, (if amount < 0 then .income else .expense), money, category, bucket,
     description, date, false, tags, now, now⟩
  let ap := applyTransactionToPlan plan0 money.baseAmount category bucket now
  (tx, ap.1, ap.2, ⟨cm.2, setA pre.2.plans key ap.1, pre.2.txs ++ [tx]⟩)

/-- The argument record of one `logTransaction` request. -/
structure LogReq where
  userId : String
  month : String
  amount : ℚ
  currency : Currency
  baseCurrency : Currency
  category : String
  bucket : BucketType
  description : String
  date : Nat
  tags : List String
deriving DecidableEq, Repr

/-- Run a sequence of `logTransaction` calls against the engine state. -/
def runLogTransactions (api : Api) (now : Nat) (nowYear nowMonth : Int) :
    EngineState → List LogReq → EngineState
  | s, [] => s
  | s, r :: rest =>
      runLogTransactions api now nowYear nowMonth
        (logTransaction api now nowYear nowMonth s r.userId r.month r.amount r.currency
          r.baseCurrency r.category r.bucket r.description r.date r.tags).2.2.2 rest

/-- JavaScript leap-year rule used by `new Date(year, month, 0).getDate()`. -/
def isLeapYear (y : Nat) : Bool :=
  (y % 4 == 0 && y % 100 != 0) || y % 400 == 0

/-- Day count of calendar month `m` (1-based) of year `y`, the value of
`new Date(y, m, 0).getDate()` for the arguments the generator produces. -/
def daysInMonth (y m : Nat) : Nat :=
  if m == 2 then (if isLeapYear y then 29 else 28)
  else if m == 4 || m == 6 || m == 9 || m == 11 then 30
  else 31

/-- The per-bucket scan of `generateInsights`: the bucket-level percent-used
alert / warning followed by one alert per `OVER` category. -/
def bucketScanInsights (now : Nat) (bucketType : BucketType) (bucket : BudgetBucket) :
    List BudgetInsight :=
  let percentUsed :=
    if bucket.planned.baseAmount > 0 then
      bucket.spent.baseAmount / bucket.planned.baseAmount * 100
    else 0
  (if percentUsed ≥ 100 then [⟨.alert, some bucketType, none, now⟩]
   else if percentUsed ≥ 80 then [⟨.warning, some bucketType, none, now⟩]
   else []) ++
  bucket.categories.filterMap
    (fun kv => if kv.2.status = .OVER then some ⟨.alert, some bucketType, some kv.1, now⟩ else none)

/-- The goal-milestone scan of `generateInsights`. -/
def goalScanInsights (now : Nat) (g : GoalSnapshot) : List BudgetInsight :=
  if g.progressPercent ≥ 100 then [⟨.success, none, none, now⟩]
  else if g.progressPercent ≥ 75 then [⟨.info, none, none, now⟩]
  else []

/-- `generateInsights` from `budget.service.ts` (the full rescan): scan the four
buckets in insertion order, then the savings pacing heuristic (below half the
savings planned spent and past the month's midpoint), then goal milestones.
`currentDay` is the calendar day the source reads from `new Date().getDate()`. -/
def generateInsights (plan : MonthlyBudgetPlan) (currentDay now : Nat) : List BudgetInsight :=
  let bucketIns :=
    bucketScanInsights now .NEEDS plan.buckets.NEEDS ++
    bucketScanInsights now .WANTS plan.buckets.WANTS ++
    bucketScanInsights now .SAVINGS plan.buckets.SAVINGS ++
    bucketScanInsights now .DEBT plan.buckets.DEBT
  let monthParts := plan.month.splitOn ("-")
  let year := ((monthParts.get? 0).bind String.toNat?).getD 0
  let mon := ((monthParts.get? 1).bind String.toNat?).getD 0
  let savingsIns :=
    if plan.buckets.SAVINGS.spent.baseAmount < plan.buckets.SAVINGS.planned.baseAmount * 0.5 then
      (if (currentDay : ℚ) > (daysInMonth year mon : ℚ) / 2 then
        [⟨.info, some .SAVINGS, none, now⟩]
       else [])
    else []
  bucketIns ++ savingsIns ++ (plan.goalsSnapshot.map (goalScanInsights now)).flatten

/-- Engine-level wrapper of `generateInsights`. The source function reads the
plan and writes neither the plan nor the module-level stores — the embedding
makes that frame explicit by passing the state and the plan through. -/
def generateInsightsS (s : EngineState) (plan : MonthlyBudgetPlan) (currentDay now : Nat) :
    List BudgetInsight × MonthlyBudgetPlan × EngineState :=
  (generateInsights plan currentDay now, plan, s)

/-! ## Derived predicates used by the theorems -/

/-- A benign FX cache for the same-currency pair `(c, c)` at time `now`: any
cached entry under the key `c_c` is either stale (one hour or older) or
carries the identity rate. The empty cache satisfies this trivially. -/
def sameRateOkB (st : FxState) (now : Nat) (c : Currency) : Bool :=
  match lookupA st (getCacheKey c c) with
  | some e => decide (3600000 ≤ now - e.timestamp) || decide (e.rate = 1)
  | none => true

/-- Bucket-level consistency: the bucket's spent equals the sum of the spent
amounts of its categories. -/
def bucketSpentOk (b : BudgetBucket) : Prop :=
  b.spent.baseAmount = (b.categories.map (fun kv => kv.2.spent)).sum

/-- Plan-level consistency: every one of the four buckets satisfies
`bucketSpentOk`. -/
def planSpentOk (p : MonthlyBudgetPlan) : Prop :=
  bucketSpentOk p.buckets.NEEDS ∧ bucketSpentOk p.buckets.WANTS ∧
  bucketSpentOk p.buckets.SAVINGS ∧ bucketSpentOk p.buckets.DEBT

/-- The amended per-snapshot payment bound of claim C3: the snapshot belongs to
an input debt (same id, same outstanding principal) and its allocated payment
is at least the smaller of that debt's minimum payment and its outstanding
principal. -/
def allocOkFor (debts : List Debt) (s : DebtSnapshot) : Prop :=
  ∃ d, d ∈ debts ∧ s.debtId = d.id ∧ s.outstandingPrincipal = d.outstandingPrincipal ∧
    min d.minMonthlyPayment.baseAmount d.outstandingPrincipal.baseAmount ≤
      s.allocatedPayment.baseAmount

/-- Concrete income source used to instantiate theorems: 10000 AED, active. -/
def income10000 : IncomeSource :=
  ⟨("i1"), ("u1"), ("salary"), ⟨10000, ("AED"), 10000, 1, 0⟩, true⟩

/-- Concrete income source used to instantiate theorems: 1000 AED, active. -/
def income1000 : IncomeSource :=
  ⟨("i1"), ("u1"), ("salary"), ⟨1000, ("AED"), 1000, 1, 0⟩, true⟩

/-- Concrete debt whose outstanding principal (50) is below its minimum monthly
payment (100). -/
def debtSmall : Debt :=
  ⟨("d1"), ("u1"), ("small"), ("AED"), ⟨50, ("AED"), 50, 1, 0⟩, 10,
   ⟨100, ("AED"), 100, 1, 0⟩, ("AE")⟩

/-- Rule set with a 5% savings bucket below the 10% savings floor. -/
def rulesLowSavings : BudgetRuleSet :=
  ⟨⟨50, 20, 5, 15⟩, 10, 5, ⟨0.5, 0.4, 0.1⟩, 6, .avalanche⟩

/-! ## Helper lemmas -/

lemma lookupA_setA_self {α : Type} (l : List (String × α)) (k : String) (v : α) :
    lookupA (setA l k v) k = some v := by
  induction l with
  | nil => simp [setA, lookupA]
  | cons hd rest ih =>
      obtain ⟨k', w⟩ := hd
      by_cases h : k' = k
      · simp [setA, lookupA, h]
      · simp [setA, lookupA, h, ih]

lemma fetchFxRate_same (api : Api) (st : FxState) (now : Nat) (c : Currency)
    (h : sameRateOkB st now c = true) :
    (fetchFxRate api st now c c).1.rate = 1 ∧
    sameRateOkB (fetchFxRate api st now c c).2 now c = true := by
  unfold sameRateOkB at h
  unfold fetchFxRate
  cases hl : lookupA st (getCacheKey c c) with
  | none =>
      simp only [hl, if_true]
      refine ⟨trivial, ?_⟩
      unfold sameRateOkB
      rw [lookupA_setA_self]
      simp
  | some cached =>
      rw [hl] at h
      simp only [hl]
      by_cases hf : now - cached.timestamp < 3600000
      · simp only [if_pos hf]
        have h' : 3600000 ≤ now - cached.timestamp ∨ cached.rate = 1 := by
          simpa using h
        have hr : cached.rate = 1 := by
          rcases h' with h1 | h2
          · exact absurd h1 (not_le.mpr hf)
          · exact h2
        refine ⟨hr, ?_⟩
        unfold sameRateOkB
        rw [hl, h]
      · simp only [if_neg hf, if_true]
        refine ⟨trivial, ?_⟩
        unfold sameRateOkB
        rw [lookupA_setA_self]
        simp

lemma createMoney_same (api : Api) (st : FxState) (now : Nat) (a : ℚ) (c : Currency)
    (h : sameRateOkB st now c = true) :
    (createMoney api st now a c c).1.baseAmount = a ∧
    (createMoney api st now a c c).1.fxRate = 1 ∧
    sameRateOkB (createMoney api st now a c c).2 now c = true := by
  obtain ⟨hr, hok⟩ := fetchFxRate_same api st now c h
  unfold createMoney convertCurrency
  refine ⟨?_, ?_, ?_⟩
  · simp only []
    rw [hr, mul_one]
  · exact hr
  · exact hok

/-! ## C6 — the shared status rule -/

/-- C6 counterexample: the claim quantifies over all real `spent` and `planned`,
but at `spent = -20`, `planned = -10` the code returns `OVER` (the ratio is 2)
while the claimed characterization `spent > planned ∧ planned ≠ 0` is false. -/
theorem calculateStatus_claim_false_on_negatives :
    ¬ (calculateStatus (-20) (-10) = .OVER ↔ ((-20 : ℚ) > -10 ∧ ((-10 : ℚ) ≠ 0))) := by
  norm_num [calculateStatus]

/-- C6 (amended): for `planned ≥ 0` — the domain the engine produces, planned
amounts being percentage allocations of income — the shared status function is
`OVER` iff `planned ≠ 0` and `spent > planned`, `NEAR_LIMIT` iff `planned ≠ 0`
and `0.8 * planned ≤ spent ≤ planned`, and `UNDER` otherwise, in particular
whenever `planned = 0`. -/
theorem calculateStatus_characterization (spent planned : ℚ) (h : 0 ≤ planned) :
    (calculateStatus spent planned = .OVER ↔ (planned ≠ 0 ∧ planned < spent)) ∧
    (calculateStatus spent planned = .NEAR_LIMIT ↔
      (planned ≠ 0 ∧ 0.8 * planned ≤ spent ∧ spent ≤ planned)) ∧
    (calculateStatus spent planned = .UNDER ↔ (planned = 0 ∨ spent < 0.8 * planned)) := by
  rcases eq_or_lt_of_le h with h0 | hpos
  · have hz : planned = 0 := h0.symm
    subst hz
    simp [calculateStatus]
  · have hne : planned ≠ 0 := ne_of_gt hpos
    simp only [calculateStatus, if_neg hne]
    split_ifs with h1 h2
    · have hps : planned < spent := (one_lt_div hpos).mp h1
      refine ⟨iff_of_true rfl ⟨hne, hps⟩, iff_of_false (by simp) ?_, iff_of_false (by simp) ?_⟩
      · rintro ⟨-, -, hle⟩
        linarith
      · rintro (h0 | hlt)
        · exact hne h0
        · linarith
    · have hle : spent ≤ planned := (div_le_one hpos).mp (not_lt.mp h1)
      have hge : 0.8 * planned ≤ spent := (le_div_iff₀ hpos).mp h2
      refine ⟨iff_of_false (by simp) ?_, iff_of_true rfl ⟨hne, hge, hle⟩,
              iff_of_false (by simp) ?_⟩
      · rintro ⟨-, hq⟩
        linarith
      · rintro (h0 | hlt)
        · exact hne h0
        · linarith
    · have hlt : spent < 0.8 * planned := (div_lt_iff₀ hpos).mp (not_le.mp h2)
      refine ⟨iff_of_false (by simp) ?_, iff_of_false (by simp) ?_,
              iff_of_true rfl (Or.inr hlt)⟩
      · rintro ⟨-, hq⟩
        linarith
      · rintro ⟨-, hq, -⟩
        linarith

/-- Witness for `calculateStatus_characterization` at `spent = 1`, `planned = 2`. -/
theorem calculateStatus_characterization_witness :
    (0 : ℚ) ≤ 2 ∧
    ((calculateStatus 1 2 = .OVER ↔ ((2 : ℚ) ≠ 0 ∧ (2 : ℚ) < 1)) ∧
     (calculateStatus 1 2 = .NEAR_LIMIT ↔
       ((2 : ℚ) ≠ 0 ∧ (0.8 : ℚ) * 2 ≤ 1 ∧ (1 : ℚ) ≤ 2)) ∧
     (calculateStatus 1 2 = .UNDER ↔ ((2 : ℚ) = 0 ∨ (1 : ℚ) < 0.8 * 2))) :=
  ⟨by norm_num, calculateStatus_characterization 1 2 (by norm_num)⟩

/-! ## C7 — same-currency round trip -/

/-- C7 counterexample: the cache check of `fetchFxRate` precedes the
same-currency check, so after `setFxRate("USD", "USD", 2)` the fresh cached
rate 2 wins and `createMoney(10, USD, USD)` yields `baseAmount = 20`,
`fxRate = 2` — not `baseAmount = amount`, `fxRate = 1` as claimed. -/
theorem createMoney_same_currency_claim_false :
    ((createMoney apiNone (setFxRate [] 0 ("USD") ("USD") 2).2 0 10 ("USD") ("USD")).1.baseAmount = 20 ∧
     (createMoney apiNone (setFxRate [] 0 ("USD") ("USD") 2).2 0 10 ("USD") ("USD")).1.fxRate = 2) ∧
    ¬ ((createMoney apiNone (setFxRate [] 0 ("USD") ("USD") 2).2 0 10 ("USD") ("USD")).1.baseAmount = 10 ∧
       (createMoney apiNone (setFxRate [] 0 ("USD") ("USD") 2).2 0 10 ("USD") ("USD")).1.fxRate = 1) := by
  norm_num [createMoney, convertCurrency, fetchFxRate, setFxRate, setA, lookupA, getCacheKey, apiNone]

/-- C7 (amended): whenever the cache holds no fresh non-identity entry for the
pair `(X, X)` — in particular from the initial empty cache, or any state whose
`(X, X)` entry is stale — `createMoney(amount, X, X)` returns
`baseAmount = amount` and `fxRate = 1`, for every amount, currency and
provider behavior. -/
theorem createMoney_same_currency_identity (api : Api) (st : FxState) (now : Nat)
    (amount : ℚ) (X : Currency) (h : sameRateOkB st now X = true) :
    (createMoney api st now amount X X).1.baseAmount = amount ∧
    (createMoney api st now amount X X).1.fxRate = 1 :=
  ⟨(createMoney_same api st now amount X h).1, (createMoney_same api st now amount X h).2.1⟩

/-- Witness for `createMoney_same_currency_identity` on the empty cache. -/
theorem createMoney_same_currency_identity_witness :
    sameRateOkB [] 0 ("USD") = true ∧
    ((createMoney apiNone [] 0 10 ("USD") ("USD")).1.baseAmount = 10 ∧
     (createMoney apiNone [] 0 10 ("USD") ("USD")).1.fxRate = 1) :=
  ⟨rfl, createMoney_same_currency_identity apiNone [] 0 10 ("USD") rfl⟩

/-! ## C4 / C5 — debt ordering and the single extra payment -/

instance strategyRelTotal : (s : DebtStrategy) → IsTotal Debt (strategyRel s)
  | .snowball => ⟨fun _ _ => le_total _ _⟩
  | .avalanche => ⟨fun _ _ => Or.symm (le_total _ _)⟩

instance strategyRelTrans : (s : DebtStrategy) → IsTrans Debt (strategyRel s)
  | .snowball => ⟨fun _ _ _ hab hbc => le_trans hab hbc⟩
  | .avalanche => ⟨fun _ _ _ hab hbc => le_trans hbc hab⟩

lemma sortDebts_pairwise (s : DebtStrategy) (debts : List Debt) :
    List.Pairwise (strategyRel s) (sortDebts s debts) :=
  List.sorted_insertionSort (strategyRel s) debts

lemma debtWalk_map_proj (api : Api) (now : Nat) (base : Currency) :
    ∀ (ds : List Debt) (st : FxState) (remaining : ℚ) (acc : List DebtSnapshot),
      (debtWalk api now base st ds remaining acc).1.map
          (fun s => (s.debtId, s.outstandingPrincipal))
        = acc.map (fun s => (s.debtId, s.outstandingPrincipal)) ++
          ds.map (fun d => (d.id, d.outstandingPrincipal))
  | [], st, remaining, acc => by simp [debtWalk]
  | d :: rest, st, remaining, acc => by
      rw [debtWalk, debtWalk_map_proj api now base rest]
      simp

/-- C4: the debt snapshots of a generated plan are, position by position, the
input debts sorted by the rule set's strategy (same `debtId` and the same
`outstandingPrincipal` `Money` at each position); that sorted list is pairwise
ordered — under `avalanche` by non-increasing annual interest rate, under
`snowball` by non-decreasing outstanding principal (`strategyRel`) — and is a
permutation of the input debts. Hence for any snapshot `A` before `B`, `A`'s
debt precedes `B`'s in a list sorted by the strategy order. -/
theorem debtsSnapshot_ordered_by_strategy (api : Api) (st : FxState) (now : Nat)
    (nowYear nowMonth : Int) (userId month : String) (baseCurrency : Currency)
    (incomes : List IncomeSource) (debts : List Debt) (goals : List Goal)
    (rules : BudgetRuleSet) :
    ((generateBudgetPlan api st now nowYear nowMonth userId month baseCurrency
        incomes debts goals rules).1.debtsSnapshot.map
        (fun s => (s.debtId, s.outstandingPrincipal))
      = (sortDebts rules.debtStrategy debts).map (fun d => (d.id, d.outstandingPrincipal)))
    ∧ List.Pairwise (strategyRel rules.debtStrategy) (sortDebts rules.debtStrategy debts)
    ∧ (sortDebts rules.debtStrategy debts).Perm debts := by
  refine ⟨?_, sortDebts_pairwise _ _, List.perm_insertionSort _ _⟩
  simp only [generateBudgetPlan]
  rw [debtWalk_map_proj]
  simp

lemma debtWalk_countP_of_ne_nil (api : Api) (now : Nat) (base : Currency) :
    ∀ (ds : List Debt) (st : FxState) (remaining : ℚ) (acc : List DebtSnapshot),
      acc ≠ [] →
      ((debtWalk api now base st ds remaining acc).1.countP (fun s => !s.isMinimumPayment))
        = acc.countP (fun s => !s.isMinimumPayment)
  | [], st, remaining, acc, _ => by simp [debtWalk]
  | d :: rest, st, remaining, acc, h => by
      rw [debtWalk]
      have hdec : decide (acc = []) = false := decide_eq_false h
      simp only [hdec, Bool.and_false, Bool.false_eq_true, if_false]
      rw [debtWalk_countP_of_ne_nil api now base rest _ _ _ (by simp)]
      simp [List.countP_append, List.countP_cons]

/-- C5: in every generated plan, at most one debt snapshot has
`isMinimumPayment = false` — the extra-payment branch of the distribution loop
is only reachable while the snapshot list is still empty. -/
theorem at_most_one_extra_payment (api : Api) (st : FxState) (now : Nat)
    (nowYear nowMonth : Int) (userId month : String) (baseCurrency : Currency)
    (incomes : List IncomeSource) (debts : List Debt) (goals : List Goal)
    (rules : BudgetRuleSet) :
    ((generateBudgetPlan api st now nowYear nowMonth userId month baseCurrency
        incomes debts goals rules).1.debtsSnapshot.countP
      (fun s => !s.isMinimumPayment)) ≤ 1 := by
  simp only [generateBudgetPlan]
  cases hds : sortDebts rules.debtStrategy debts with
  | nil => simp [debtWalk]
  | cons d rest =>
      rw [debtWalk]
      rw [debtWalk_countP_of_ne_nil api now baseCurrency rest _ _ _ (by simp)]
      simpa using List.countP_le_length (l := [(⟨d.id, d.name, d.outstandingPrincipal, _, _⟩ : DebtSnapshot)]) (p := fun s => !s.isMinimumPayment)

/-! ## C1 — the savings-floor warning is dead code -/

/-- C1: contrary to the claim, `generateBudgetPlan` can never emit the
warning-type SAVINGS insight: the check `savingsPlanned < minSavings` of Step 8
runs after Step 3 has already raised `savingsPlanned` to the floor, so it is
always false. First conjunct: no generated plan ever carries a warning insight
for the SAVINGS bucket. Second conjunct: a concrete run in which the
percentage-derived savings allocation (10000 * 5 / 100 = 500) is strictly below
the floor (10000 * 10 / 100 = 1000) and the returned plan's insight list is
nevertheless empty. -/
theorem savings_floor_warning_never_emitted :
    (∀ (api : Api) (st : FxState) (now : Nat) (nowYear nowMonth : Int)
       (userId month : String) (baseCurrency : Currency)
       (incomes : List IncomeSource) (debts : List Debt) (goals : List Goal)
       (rules : BudgetRuleSet),
      ((generateBudgetPlan api st now nowYear nowMonth userId month baseCurrency
          incomes debts goals rules).1.insights.countP
        (fun i => decide (i.type = InsightType.warning ∧ i.bucket = some BucketType.SAVINGS))) = 0)
    ∧ ((10000 * 5 / 100 : ℚ) < 10000 * (10 / 100)
       ∧ (generateBudgetPlan apiNone [] 0 2025 1 ("u") ("2025-01") ("AED")
            [income10000] [] [] rulesLowSavings).1.insights = []) := by
  constructor
  · intro api st now nowYear nowMonth userId month baseCurrency incomes debts goals rules
    simp only [generateBudgetPlan]
    split_ifs with h1 h2 h3 <;>
      simp_all [List.countP_cons, List.countP_nil, List.countP_append]
  · refine ⟨by norm_num, ?_⟩
    norm_num [generateBudgetPlan, createMoney, convertCurrency, fetchFxRate, setA, lookupA,
      getCacheKey, apiNone, sortDebts, strategyRel, debtWalk, debtMatchesBase, createBucket,
      goalSnapshotOf, calculateMonthsRemaining, calculateStatus, DEFAULT_CATEGORIES_NEEDS,
      DEFAULT_CATEGORIES_WANTS, DEFAULT_CATEGORIES_SAVINGS, DEFAULT_CATEGORIES_DEBT,
      income10000, rulesLowSavings]

/-! ## C3 — minimum payments can be undercut by the principal cap -/

lemma forall_append {α : Type} (P : α → Prop) (l1 l2 : List α)
    (h1 : List.Forall P l1) (h2 : List.Forall P l2) : List.Forall P (l1 ++ l2) := by
  induction l1 with
  | nil => simpa
  | cons x xs ih =>
      rw [List.cons_append, List.forall_cons]
      rw [List.forall_cons] at h1
      exact ⟨h1.1, ih h1.2⟩

lemma debtWalk_allocOk (api : Api) (now : Nat) (base : Currency) (debts : List Debt) :
    ∀ (ds : List Debt) (st : FxState) (remaining : ℚ) (acc : List DebtSnapshot),
      (∀ d ∈ ds, d ∈ debts) →
      sameRateOkB st now base = true →
      List.Forall (allocOkFor debts) acc →
      List.Forall (allocOkFor debts) (debtWalk api now base st ds remaining acc).1
  | [], st, remaining, acc, _, _, hacc => by simpa [debtWalk] using hacc
  | d :: rest, st, remaining, acc, hds, hst, hacc => by
      simp only [debtWalk]
      obtain ⟨hb, -, hok⟩ := createMoney_same api st now _ base hst
      refine debtWalk_allocOk api now base debts rest _ _ _
        (fun x hx => hds x (List.mem_cons_of_mem _ hx)) hok
        (forall_append _ _ _ hacc ?_)
      show allocOkFor debts _
      refine ⟨d, hds d (List.mem_cons_self _ _), rfl, rfl, ?_⟩
      rw [hb]
      by_cases hc : (decide (remaining > d.minMonthlyPayment.baseAmount) && decide (acc = [])) = true
      · rw [if_pos hc]
        simp only [Bool.and_eq_true, decide_eq_true_eq] at hc
        exact min_le_min (le_of_lt hc.1) (le_refl _)
      · rw [if_neg hc]
        exact min_le_left _ _

/-- C3 counterexample: with income 1000 AED and a single debt whose outstanding
principal (50) is below its minimum monthly payment (100), the planned debt
budget is 150, the extra-payment branch fires and caps the allocation at the
outstanding principal: the snapshot receives 50 < 100, violating the claimed
`allocatedPayment >= minMonthlyPayment` bound. -/
theorem allocated_below_minimum_on_small_principal :
    ¬ (∀ s ∈ (generateBudgetPlan apiNone [] 0 2025 1 ("u") ("2025-01") ("AED")
          [income1000] [debtSmall] [] DEFAULT_BUDGET_RULES).1.debtsSnapshot,
        ∀ d ∈ [debtSmall], s.debtId = d.id →
          d.minMonthlyPayment.baseAmount ≤ s.allocatedPayment.baseAmount) := by
  norm_num [generateBudgetPlan, createMoney, convertCurrency, fetchFxRate, setA, lookupA,
    getCacheKey, apiNone, sortDebts, strategyRel, debtWalk, debtMatchesBase, createBucket,
    goalSnapshotOf, calculateMonthsRemaining, calculateStatus, DEFAULT_CATEGORIES_NEEDS,
    DEFAULT_CATEGORIES_WANTS, DEFAULT_CATEGORIES_SAVINGS, DEFAULT_CATEGORIES_DEBT,
    income1000, debtSmall, DEFAULT_BUDGET_RULES]

/-- C3 (amended): under a benign FX cache for the base-currency pair, every
debt snapshot of a generated plan corresponds to an input debt and its
allocated payment is at least `min(minMonthlyPayment, outstandingPrincipal)` of
that debt. Non-first debts receive exactly their minimum; the first debt's
extra payment is capped by its outstanding principal, which is what makes the
unconditional `allocatedPayment >= minMonthlyPayment` of the claim fail. -/
theorem allocated_at_least_min_capped_by_principal (api : Api) (st : FxState) (now : Nat)
    (nowYear nowMonth : Int) (userId month : String) (baseCurrency : Currency)
    (incomes : List IncomeSource) (debts : List Debt) (goals : List Goal)
    (rules : BudgetRuleSet) (h : sameRateOkB st now baseCurrency = true) :
    List.Forall (allocOkFor debts)
      (generateBudgetPlan api st now nowYear nowMonth userId month baseCurrency
        incomes debts goals rules).1.debtsSnapshot := by
  simp only [generateBudgetPlan]
  obtain ⟨-, -, hok⟩ := createMoney_same api st now
    (((incomes.filter (fun i => i.isActive)).map (fun i => i.money.baseAmount)).sum)
    baseCurrency h
  exact debtWalk_allocOk api now baseCurrency debts _ _ _ _
    (fun x hx =>
      ((List.perm_insertionSort (strategyRel rules.debtStrategy) debts).mem_iff).mp hx)
    hok trivial

/-- Witness for `allocated_at_least_min_capped_by_principal` at the concrete
counterexample input (where the first snapshot indeed receives exactly
`min(100, 50) = 50`). -/
theorem allocated_at_least_min_capped_witness :
    sameRateOkB [] 0 ("AED") = true ∧
    List.Forall (allocOkFor [debtSmall])
      (generateBudgetPlan apiNone [] 0 2025 1 ("u") ("2025-01") ("AED")
        [income1000] [debtSmall] [] DEFAULT_BUDGET_RULES).1.debtsSnapshot :=
  ⟨rfl, allocated_at_least_min_capped_by_principal apiNone [] 0 2025 1 ("u") ("2025-01")
    ("AED") [income1000] [debtSmall] [] DEFAULT_BUDGET_RULES rfl⟩

/-! ## C8 — the savings floor invariant -/

/-- C8: under a benign FX cache for the base-currency pair (in particular from
the initial empty cache), every generated plan satisfies
`SAVINGS.planned.baseAmount >= totalIncome.baseAmount * minSavingsPercent / 100`:
Step 3 raises the percentage-derived savings allocation to the floor whenever
it falls short. -/
theorem savings_floor_invariant (api : Api) (st : FxState) (now : Nat)
    (nowYear nowMonth : Int) (userId month : String) (baseCurrency : Currency)
    (incomes : List IncomeSource) (debts : List Debt) (goals : List Goal)
    (rules : BudgetRuleSet) (h : sameRateOkB st now baseCurrency = true) :
    (generateBudgetPlan api st now nowYear nowMonth userId month baseCurrency
        incomes debts goals rules).1.totalIncome.baseAmount * rules.minSavingsPercent / 100 ≤
    (generateBudgetPlan api st now nowYear nowMonth userId month baseCurrency
        incomes debts goals rules).1.buckets.SAVINGS.planned.baseAmount := by
  simp only [generateBudgetPlan, createBucket]
  rw [(createMoney_same api st now _ baseCurrency h).1]
  rw [mul_div_assoc]
  split_ifs with h1
  · exact le_refl _
  · linarith

/-- Witness for `savings_floor_invariant` on the empty cache, at an input whose
percentage allocation (500) is below the floor (1000). -/
theorem savings_floor_invariant_witness :
    sameRateOkB [] 0 ("AED") = true ∧
    ((generateBudgetPlan apiNone [] 0 2025 1 ("u") ("2025-01") ("AED")
        [income10000] [] [] rulesLowSavings).1.totalIncome.baseAmount *
          rulesLowSavings.minSavingsPercent / 100 ≤
      (generateBudgetPlan apiNone [] 0 2025 1 ("u") ("2025-01") ("AED")
        [income10000] [] [] rulesLowSavings).1.buckets.SAVINGS.planned.baseAmount) :=
  ⟨rfl, savings_floor_invariant apiNone [] 0 2025 1 ("u") ("2025-01") ("AED")
    [income10000] [] [] rulesLowSavings rfl⟩

/-! ## C10 — bucket spent equals the sum of category spent -/

lemma applyCategory_sum (cats : List (String × CategoryBudget)) (category : String) (delta : ℚ)
    (hcat : category ∉ OBJECT_PROTOTYPE_KEYS) :
    ((applyCategory cats category delta).map (fun kv => kv.2.spent)).sum
      = (cats.map (fun kv => kv.2.spent)).sum + delta := by
  induction cats with
  | nil => simp [applyCategory, hcat]
  | cons hd rest ih =>
      obtain ⟨k, cat⟩ := hd
      by_cases h : k = category
      · simp only [applyCategory, if_pos h, List.map_cons, List.sum_cons]
        ring
      · simp only [applyCategory, if_neg h, List.map_cons, List.sum_cons, ih]
        ring

lemma createBucket_bucketOk (t : BucketType) (planned : ℚ) (base : Currency)
    (names : List String) (now : Nat) :
    bucketSpentOk (createBucket t planned base names now) := by
  simp only [bucketSpentOk, createBucket, List.map_map]
  symm
  apply List.sum_eq_zero
  intro x hx
  simp only [List.mem_map] at hx
  obtain ⟨name, -, rfl⟩ := hx
  rfl

lemma bucketSpentOk_update_savings (b : BudgetBucket) (sa : Option SavingsAllocation)
    (h : bucketSpentOk b) : bucketSpentOk { b with savingsAllocation := sa } := h

lemma bucketSpentOk_update_debt (b : BudgetBucket) (da : Option DebtAllocation)
    (h : bucketSpentOk b) : bucketSpentOk { b with debtAllocation := da } := h

lemma generateBudgetPlan_planSpentOk (api : Api) (st : FxState) (now : Nat)
    (nowYear nowMonth : Int) (userId month : String) (baseCurrency : Currency)
    (incomes : List IncomeSource) (debts : List Debt) (goals : List Goal)
    (rules : BudgetRuleSet) :
    planSpentOk (generateBudgetPlan api st now nowYear nowMonth userId month baseCurrency
      incomes debts goals rules).1 := by
  simp only [generateBudgetPlan, planSpentOk]
  exact ⟨createBucket_bucketOk _ _ _ _ _, createBucket_bucketOk _ _ _ _ _,
         bucketSpentOk_update_savings _ _ (createBucket_bucketOk _ _ _ _ _),
         bucketSpentOk_update_debt _ _ (createBucket_bucketOk _ _ _ _ _)⟩

lemma applyTransactionToPlan_planSpentOk (p : MonthlyBudgetPlan) (delta : ℚ)
    (category : String) (bucket : BucketType) (now : Nat)
    (hcat : category ∉ OBJECT_PROTOTYPE_KEYS) (h : planSpentOk p) :
    planSpentOk (applyTransactionToPlan p delta category bucket now).1 := by
  obtain ⟨hN, hW, hS, hD⟩ := h
  cases bucket with
  | NEEDS =>
      simp only [applyTransactionToPlan, getBucket, setBucket, planSpentOk]
      refine ⟨?_, hW, hS, hD⟩
      unfold bucketSpentOk at hN ⊢
      simp only [applyCategory_sum _ _ _ hcat]
      rw [hN]
  | WANTS =>
      simp only [applyTransactionToPlan, getBucket, setBucket, planSpentOk]
      refine ⟨hN, ?_, hS, hD⟩
      unfold bucketSpentOk at hW ⊢
      simp only [applyCategory_sum _ _ _ hcat]
      rw [hW]
  | SAVINGS =>
      simp only [applyTransactionToPlan, getBucket, setBucket, planSpentOk]
      refine ⟨hN, hW, ?_, hD⟩
      unfold bucketSpentOk at hS ⊢
      simp only [applyCategory_sum _ _ _ hcat]
      rw [hS]
  | DEBT =>
      simp only [applyTransactionToPlan, getBucket, setBucket, planSpentOk]
      refine ⟨hN, hW, hS, ?_⟩
      unfold bucketSpentOk at hD ⊢
      simp only [applyCategory_sum _ _ _ hcat]
      rw [hD]

lemma forall_setA {α : Type} (P : String × α → Prop) :
    ∀ (l : List (String × α)) (k : String) (v : α),
      List.Forall P l → P (k, v) → List.Forall P (setA l k v)
  | [], k, v, _, hv => by simpa [setA]
  | (k', w) :: rest, k, v, hl, hv => by
      rw [List.forall_cons] at hl
      by_cases h : k' = k
      · subst h
        simp only [setA, eq_self_iff_true, if_true, List.forall_cons]
        exact ⟨hv, hl.2⟩
      · simp only [setA, if_neg h, List.forall_cons]
        exact ⟨hl.1, forall_setA P rest k v hl.2 hv⟩

lemma lookupA_forall {α : Type} (P : α → Prop) :
    ∀ (l : List (String × α)) (key : String) (v : α),
      List.Forall (fun kv => P kv.2) l → lookupA l key = some v → P v
  | [], _, _, _, h => by simp [lookupA] at h
  | (k, w) :: rest, key, v, hl, h => by
      rw [List.forall_cons] at hl
      by_cases hk : k = key
      · rw [lookupA, if_pos hk] at h
        cases h
        exact hl.1
      · rw [lookupA, if_neg hk] at h
        exact lookupA_forall P rest key v hl.2 h

lemma logTransaction_planSpentOk (api : Api) (now : Nat) (nowYear nowMonth : Int)
    (s : EngineState) (userId month : String) (amount : ℚ)
    (currency baseCurrency : Currency) (category : String) (bucket : BucketType)
    (description : String) (date : Nat) (tags : List String)
    (hcat : category ∉ OBJECT_PROTOTYPE_KEYS)
    (hs : List.Forall (fun kv => planSpentOk kv.2) s.plans) :
    List.Forall (fun kv => planSpentOk kv.2)
      (logTransaction api now nowYear nowMonth s userId month amount currency baseCurrency
        category bucket description date tags).2.2.2.plans := by
  unfold logTransaction
  cases hl : lookupA s.plans (getPlanKey userId month) with
  | some p =>
      simp only [hl]
      exact forall_setA _ _ _ _ hs
        (applyTransactionToPlan_planSpentOk _ _ _ _ _ hcat (lookupA_forall _ _ _ _ hs hl))
  | none =>
      simp only [hl, generateBudgetPlanS]
      exact forall_setA _ _ _ _
        (forall_setA _ _ _ _ hs
          (generateBudgetPlan_planSpentOk api s.fx now nowYear nowMonth userId month
            baseCurrency [] [] [] DEFAULT_BUDGET_RULES))
        (applyTransactionToPlan_planSpentOk _ _ _ _ _ hcat
          (generateBudgetPlan_planSpentOk api s.fx now nowYear nowMonth userId month
            baseCurrency [] [] [] DEFAULT_BUDGET_RULES))

lemma runLogTransactions_planSpentOk (api : Api) (now : Nat) (nowYear nowMonth : Int) :
    ∀ (reqs : List LogReq) (s : EngineState),
      List.Forall (fun r => r.category ∉ OBJECT_PROTOTYPE_KEYS) reqs →
      List.Forall (fun kv => planSpentOk kv.2) s.plans →
      List.Forall (fun kv => planSpentOk kv.2)
        (runLogTransactions api now nowYear nowMonth s reqs).plans
  | [], s, _, hs => by simpa [runLogTransactions]
  | r :: rest, s, hreq, hs => by
      rw [List.forall_cons] at hreq
      rw [runLogTransactions]
      exact runLogTransactions_planSpentOk api now nowYear nowMonth rest _ hreq.2
        (logTransaction_planSpentOk api now nowYear nowMonth s r.userId r.month r.amount
          r.currency r.baseCurrency r.category r.bucket r.description r.date r.tags
          hreq.1 hs)

/-- C10 counterexample: one `logTransaction` call with category `constructor`
(a name inherited from `Object.prototype`) after a generated plan. The truthy
prototype-chain read `bucketData.categories["constructor"]` takes the
existing-category branch: the bucket's spent gains the 10 while no own
category is created, so the NEEDS bucket has `spent.baseAmount = 10` against a
category-spent sum of 0 — the claimed invariant fails on a reachable input. -/
theorem bucket_spent_drifts_on_prototype_key :
    ¬ List.Forall (fun kv => planSpentOk kv.2)
      (runLogTransactions apiNone 0 2025 1
        (generateBudgetPlanS apiNone 0 2025 1 ⟨[], [], []⟩ ("u") ("2025-01") ("AED")
          [] [] [] DEFAULT_BUDGET_RULES).2
        [⟨("u"), ("2025-01"), 10, ("AED"), ("AED"), ("constructor"), BucketType.NEEDS,
          (""), 0, []⟩]).plans := by
  norm_num +decide [runLogTransactions, logTransaction, generateBudgetPlanS,
    generateBudgetPlan, createMoney, convertCurrency, fetchFxRate, setA, lookupA,
    getCacheKey, getPlanKey, apiNone, sortDebts, strategyRel, debtWalk, debtMatchesBase,
    createBucket, goalSnapshotOf, calculateMonthsRemaining, calculateStatus,
    applyTransactionToPlan, applyCategory, getBucket, setBucket, OBJECT_PROTOTYPE_KEYS,
    DEFAULT_BUDGET_RULES, DEFAULT_CATEGORIES_NEEDS, DEFAULT_CATEGORIES_WANTS,
    DEFAULT_CATEGORIES_SAVINGS, DEFAULT_CATEGORIES_DEBT, List.Forall, planSpentOk,
    bucketSpentOk]

/-- C10 (amended): starting from an empty store, after `generateBudgetPlan`
(persisted by its store-level wrapper) followed by any sequence of
`logTransaction` calls — any keys, amounts, currencies and buckets, hence also
any values the FX normalization can produce — in which no request's category
is one of the `Object.prototype` member names, every plan in the store
satisfies `planSpentOk`: each bucket's `spent.baseAmount` equals the sum of
`spent` over that bucket's categories. For a prototype-inherited category name
the guard of the category update reads the truthy inherited member, mutates
it instead of creating an own category, and the two sides drift apart. -/
theorem bucket_spent_matches_category_sum (api : Api) (st0 : FxState) (now : Nat)
    (nowYear nowMonth : Int) (userId month : String) (baseCurrency : Currency)
    (incomes : List IncomeSource) (debts : List Debt) (goals : List Goal)
    (rules : BudgetRuleSet) (reqs : List LogReq)
    (hreq : List.Forall (fun r => r.category ∉ OBJECT_PROTOTYPE_KEYS) reqs) :
    List.Forall (fun kv => planSpentOk kv.2)
      (runLogTransactions api now nowYear nowMonth
        (generateBudgetPlanS api now nowYear nowMonth ⟨st0, [], []⟩ userId month baseCurrency
          incomes debts goals rules).2 reqs).plans := by
  refine runLogTransactions_planSpentOk api now nowYear nowMonth reqs _ hreq ?_
  simp only [generateBudgetPlanS]
  exact forall_setA _ _ _ _ trivial
    (generateBudgetPlan_planSpentOk api st0 now nowYear nowMonth userId month baseCurrency
      incomes debts goals rules)

/-- Witness for `bucket_spent_matches_category_sum`: a single transaction into
the ordinary category `misc`. -/
theorem bucket_spent_matches_category_sum_witness :
    List.Forall (fun r => r.category ∉ OBJECT_PROTOTYPE_KEYS)
      [(⟨("u"), ("2025-01"), 10, ("AED"), ("AED"), ("misc"), BucketType.NEEDS, (""), 0, []⟩ :
        LogReq)] ∧
    List.Forall (fun kv => planSpentOk kv.2)
      (runLogTransactions apiNone 0 2025 1
        (generateBudgetPlanS apiNone 0 2025 1 ⟨[], [], []⟩ ("u") ("2025-01") ("AED")
          [] [] [] DEFAULT_BUDGET_RULES).2
        [⟨("u"), ("2025-01"), 10, ("AED"), ("AED"), ("misc"), BucketType.NEEDS,
          (""), 0, []⟩]).plans :=
  ⟨by decide, bucket_spent_matches_category_sum apiNone [] 0 2025 1 ("u") ("2025-01") ("AED")
    [] [] [] DEFAULT_BUDGET_RULES
    [⟨("u"), ("2025-01"), 10, ("AED"), ("AED"), ("misc"), BucketType.NEEDS, (""), 0, []⟩]
    (by decide)⟩

/-! ## C2 — an auto-created category does not stay OVER -/

/-- C2 counterexample: log two 10-AED expenses into the unknown category
`misc` of the NEEDS bucket (the first call auto-creates the plan and the
category with `planned = 0`, `status = OVER`). The second call re-enters the
existing-category branch and recomputes the status via
`calculateStatus(20, 0) = UNDER`: the zero-planned category with positive
spend no longer carries status `OVER`, contradicting the claimed invariant
(and the hard-coded `OVER` of the creation branch). -/
theorem unplanned_category_not_OVER_after_second_spend :
    lookupA (getBucket (logTransaction apiNone 0 2025 1
        (logTransaction apiNone 0 2025 1 ⟨[], [], []⟩ ("u") ("2025-01") 10 ("AED") ("AED")
          ("misc") .NEEDS ("") 0 []).2.2.2 ("u") ("2025-01") 10 ("AED") ("AED")
        ("misc") .NEEDS ("") 0 []).2.1.buckets .NEEDS).categories ("misc")
      = some ⟨("misc"), 0, 20, -20, BucketStatus.UNDER⟩
    ∧ BucketStatus.UNDER ≠ BucketStatus.OVER := by
  refine ⟨?_, by simp⟩
  norm_num +decide [logTransaction, generateBudgetPlanS, generateBudgetPlan, createMoney,
    convertCurrency, fetchFxRate, setA, lookupA, getCacheKey, getPlanKey, apiNone,
    sortDebts, strategyRel, debtWalk, debtMatchesBase, createBucket, goalSnapshotOf,
    calculateMonthsRemaining, calculateStatus, applyTransactionToPlan, applyCategory,
    getBucket, setBucket, OBJECT_PROTOTYPE_KEYS, DEFAULT_BUDGET_RULES, DEFAULT_CATEGORIES_NEEDS,
    DEFAULT_CATEGORIES_WANTS, DEFAULT_CATEGORIES_SAVINGS, DEFAULT_CATEGORIES_DEBT]

/-! ## C9 — the full-rescan insight generator is pure -/

/-- C9: the full-rescan insight generator leaves the plan and the whole engine
state (plan store, transaction store, FX cache) unchanged and only returns the
computed insight list: the source function reads the plan and performs no
store write or plan mutation, so the embedding passes both through untouched. -/
theorem generateInsights_leaves_state_unchanged (s : EngineState)
    (plan : MonthlyBudgetPlan) (currentDay now : Nat) :
    (generateInsightsS s plan currentDay now).2.1 = plan ∧
    (generateInsightsS s plan currentDay now).2.2 = s ∧
    (generateInsightsS s plan currentDay now).1 = generateInsights plan currentDay now :=
  ⟨rfl, rfl, rfl⟩

end WealthPulse
